import Mathlib

/-!
Verification of the TP4000 digital-multimeter decoder (tp4000.py).

Shallow embedding conventions:
* Python floats are modelled as exact rationals; the scale table and the
  decimal parse produce the corresponding exact rational values.
* Byte values are natural numbers; the code only ever inspects them via
  division and remainder by 16, matching the Python integer operations.
* The serial transport is modelled as a script: a list of responses, one per
  read call.  Each response is the list of bytes that call returned (a short
  or empty response models a timeout), truncated to the requested count,
  since the real transport never returns more than was requested.
* Python exceptions become explicit outcome values.
-/

/-- Digit-cell state: highBit indicator plus decoded glyph, and the four flag
categories, as assembled by Dmm.read before constructing a DmmValue. -/
structure Attribs where
  flags : List String
  scale : List String
  measure : List String
  other : List String
deriving Repr, DecidableEq

/-- Python: attribs = {'flags': [], 'scale': [], 'measure': [], 'other': []}. -/
def initAttribs : Attribs := ⟨[], [], [], []⟩

/-- Python: attribs[attr].append(val).  The bits table below only ever uses
the four keys handled here; any other key would raise KeyError in Python and
is unreachable. -/
def appendAttrib (attr v : String) (a : Attribs) : Attribs :=
  if attr == ("flags") then { a with flags := a.flags ++ [v] }
  else if attr == ("scale") then { a with scale := a.scale ++ [v] }
  else if attr == ("measure") then { a with measure := a.measure ++ [v] }
  else { a with other := a.other ++ [v] }

/-- Dmm.bits: per-byte ordered flag assignments (byte position, four
(category, name) entries, most significant bit first). -/
def bits : List (Nat × List (String × String)) :=
  [(1, [("flags", "AC"), ("flags", "DC"), ("flags", "AUTO"), ("flags", "RS232")]),
   (10, [("scale", "micro"), ("scale", "nano"), ("scale", "kilo"), ("measure", "diode")]),
   (11, [("scale", "milli"), ("measure", "% (duty-cycle)"), ("scale", "mega"),
         ("flags", "beep")]),
   (12, [("measure", "Farads"), ("measure", "Ohms"), ("flags", "REL delta"),
         ("flags", "Hold")]),
   (13, [("measure", "Amps"), ("measure", "volts"), ("measure", "Hertz"),
         ("other", "other_13_1")]),
   (14, [("other", "other_14_4"), ("measure", "degrees Celcius"), ("other", "other_14_2"),
         ("other", "other_14_1")])]

/-- Dmm.digits: the four digit cells, as (first byte, second byte,
punctuation glyph) with 1-based byte positions. -/
def digits : List (Nat × Nat × Char) := [(2, 3, '-'), (4, 5, '.'), (6, 7, '.'), (8, 9, '.')]

/-- Dmm.digitTable: two-nibble pair to glyph. -/
def digitTable : List ((Nat × Nat) × Char) :=
  [((0, 5), '1'), ((5, 11), '2'), ((1, 15), '3'), ((2, 7), '4'), ((3, 14), '5'),
   ((7, 14), '6'), ((1, 5), '7'), ((7, 15), '8'), ((3, 15), '9'), ((7, 13), '0'),
   ((6, 8), 'L'), ((0, 0), ' ')]

/-- Dmm._readDigit: table lookup with the KeyError handler returning the
sentinel glyph X. -/
def digitLookup (b1 b2 : Nat) : Char :=
  ((digitTable.find? (fun p => p.1 == (b1, b2))).map (fun p => p.2)).getD ('X')

/-- Dmm._readDigit(byte1, byte2): returns (highBit, digit).  The Python
highBit is the integer b1 // 8 of a nibble, used for its truthiness. -/
def readDigit (byte1 byte2 : Nat) : Bool × Char :=
  let b1 := byte1 % 16
  let highBit := b1 / 8
  let b1r := b1 % 8
  let b2 := byte2 % 16
  (highBit != 0, digitLookup b1r b2)

/-- Dmm._readAttribByte inner loop: b starts as the low nibble, bitVal starts
at 8 and halves at each of the four entries; a set bit appends the entry name
to its category. -/
def readAttribBits : Nat → Nat → List (String × String) → Attribs → Attribs
  | _, _, [], a => a
  | b, bitVal, (attr, v) :: rest, a =>
    if b / bitVal != 0 then
      readAttribBits (b - bitVal) (bitVal / 2) rest (appendAttrib attr v a)
    else
      readAttribBits b (bitVal / 2) rest a

/-- Dmm._readAttribByte(byte, bits, attribs). -/
def readAttribByte (byte : Nat) (entries : List (String × String)) (a : Attribs) : Attribs :=
  readAttribBits (byte % 16) 8 entries a

/-- Dmm.read digit-assembly loop: for each digit cell, emit the punctuation
glyph when the highBit indicator is set, then the decoded glyph. -/
def assembleVal (frame : List Nat) : String :=
  digits.foldl
    (fun acc cell =>
      match cell with
      | (d1, d2, ch) =>
        let hd := readDigit (frame.getD (d1 - 1) 0) (frame.getD (d2 - 1) 0)
        acc ++ (if hd.1 then String.mk [ch] else "") ++ String.mk [hd.2])
    ""

/-- Dmm.read attribute-assembly loop over the bits table. -/
def readAttribs (frame : List Nat) : Attribs :=
  bits.foldl (fun a kv => readAttribByte (frame.getD (kv.1 - 1) 0) kv.2 a) initAttribs

/-! Decimal parsing: models the Python builtin float() applied to the
assembled digit string.  The glyph alphabet of this program (digits, minus
sign, dot, space, L, X) can never form the inf/nan words, an exponent, an
underscore separator or a leading plus, so only the plain fixed-point part of
the Python grammar is modelled: optional surrounding whitespace, an optional
leading minus sign, and digits with at most one dot and at least one digit.
The parsed value is the exact rational the literal denotes. -/

/-- ASCII characters the Python float parser strips at both ends. -/
def pyWhitespace (c : Char) : Bool :=
  c = ' ' || c = '\t' || c = '\n' || c = '\r' || c = '\x0b' || c = '\x0c'

def isDigitChar (c : Char) : Bool := '0' ≤ c && c ≤ '9'

/-- Value of a digit string read most significant first. -/
def digitsToNat (cs : List Char) : Nat :=
  cs.foldl (fun a c => 10 * a + (c.toNat - 48)) 0

/-- Unsigned part of the float grammar: digits with an optional single dot
and at least one digit in total. -/
def parseUnsigned (cs : List Char) : Option ℚ :=
  let ip := cs.takeWhile isDigitChar
  let rest := cs.dropWhile isDigitChar
  match rest with
  | [] => if ip = [] then none else some (digitsToNat ip)
  | '.' :: fr =>
    if fr.all isDigitChar && !(ip = [] && fr = []) then
      some ((digitsToNat ip : ℚ) + (digitsToNat fr : ℚ) / 10 ^ fr.length)
    else none
  | _ => none

/-- Python float(s) on the glyph alphabet (see the note above). -/
def pyFloat (s : String) : Option ℚ :=
  let cs := ((s.data.dropWhile pyWhitespace).reverse.dropWhile pyWhitespace).reverse
  match cs with
  | '-' :: rest => (parseUnsigned rest).map (fun q => -q)
  | _ => parseUnsigned cs

/-! Rendering: models the Python expression a percent-s format of a float,
for the finite decimal values that arise from parsing an assembled digit
string (magnitude between 0.001 and 9999, so never scientific notation, and
never a negative zero). -/

def digitChar (n : Nat) : Char :=
  if n = 0 then '0' else if n = 1 then '1' else if n = 2 then '2'
  else if n = 3 then '3' else if n = 4 then '4' else if n = 5 then '5'
  else if n = 6 then '6' else if n = 7 then '7' else if n = 8 then '8' else '9'

/-- Decimal digits of a natural number, most significant first; the fuel is
always sufficient at the call below. -/
def natDigitsAux : Nat → Nat → List Char
  | 0, _ => []
  | fuel + 1, n =>
    if n < 10 then [digitChar n] else natDigitsAux fuel (n / 10) ++ [digitChar (n % 10)]

def natStr (n : Nat) : String := String.mk (natDigitsAux (n + 1) n)

/-- Number of times p divides n (fuel-bounded; n is always enough fuel). -/
def divCountF : Nat → Nat → Nat → Nat
  | 0, _, _ => 0
  | fuel + 1, p, n => if 2 ≤ p ∧ p ∣ n ∧ n ≠ 0 then divCountF fuel p (n / p) + 1 else 0

def divCount (p n : Nat) : Nat := divCountF n p n

/-- Python str of the parsed float: sign, integer part, dot, fraction digits
without trailing zeros (an integer value renders with a single 0 fraction
digit, matching Python). -/
def pyFloatStr (x : ℚ) : String :=
  let sgn := if x < 0 then "-" else ""
  let a := |x|
  let k := max (divCount 2 a.den) (divCount 5 a.den)
  let m := (a * (10 : ℚ) ^ k).num.toNat
  let ip := m / 10 ^ k
  let fr := m % 10 ^ k
  let frs := natStr fr
  let frPadded := String.mk (List.replicate (k - frs.data.length) '0' ++ frs.data)
  sgn ++ natStr ip ++ "." ++ frPadded

/-- The DmmValue instance after __init__ finishes: every attribute the Python
constructor assigns. -/
structure DmmValue where
  saneValue : Bool
  rawVal : String
  val : String
  flags : List String
  scaleFlags : List String
  measurementFlags : List String
  reservedFlags : List String
  readErrors : Nat
  rawBytes : List Nat
  text : String
  ACDC : Option String
  ACDCText : String
  delta : Bool
  deltaText : String
  scale : String
  multiplier : ℚ
  measurement : Option String
  numericVal : Option ℚ
deriving Repr, DecidableEq

/-- The attribute assignments at the top of DmmValue.__init__, before the
four process steps run.  The fields each process step assigns
unconditionally (ACDC, ACDCText, delta, deltaText, scale, multiplier,
measurement, numericVal) are given their Python pre-assignment values here;
the process steps overwrite them exactly as the Python methods do. -/
def initDmmValue (v : String) (attribs : Attribs) (readErrors : Nat)
    (rawBytes : List Nat) : DmmValue where
  saneValue := true
  rawVal := v
  val := v
  flags := attribs.flags
  scaleFlags := attribs.scale
  measurementFlags := attribs.measure
  reservedFlags := attribs.other
  readErrors := readErrors
  rawBytes := rawBytes
  text := "Invalid Value"
  ACDC := none
  ACDCText := ""
  delta := false
  deltaText := ""
  scale := ""
  multiplier := 1
  measurement := none
  numericVal := none

/-- The sequential AC or DC selection in DmmValue.processFlags: the AC test
runs first and the DC test second, so DC wins when both flags are present. -/
def acdcOf (fl : List String) : Option String :=
  if fl.contains ("DC") then some "DC"
  else if fl.contains ("AC") then some "AC"
  else none

/-- DmmValue.processFlags: AC and DC together clear saneValue; the recorded
ACDC value produces the suffix text; the REL delta flag sets the delta
marker and its text. -/
def processFlags (d : DmmValue) : DmmValue :=
  { d with
    saneValue :=
      if d.flags.contains ("AC") && d.flags.contains ("DC") then false else d.saneValue,
    ACDC := acdcOf d.flags,
    ACDCText :=
      match acdcOf d.flags with
      | some s => " " ++ s
      | none => "",
    delta := d.flags.contains ("REL delta"),
    deltaText := if d.flags.contains ("REL delta") then "delta " else "" }

/-- DmmValue.scaleTable, with the float constants as exact rationals. -/
def scaleTable : List (String × ℚ) :=
  [("nano", 1 / 1000000000), ("micro", 1 / 1000000), ("milli", 1 / 1000),
   ("kilo", 1000), ("mega", 1000000)]

def scaleLookup (k : String) : Option ℚ :=
  (scaleTable.find? (fun p => p.1 == k)).map (fun p => p.2)

/-- DmmValue.processScale.  The singleton branch looks the flag name up in
scaleTable; for a realizable RawDecode the name always comes from the bits
table, so the lookup never misses (Python would raise KeyError on a miss;
the getD default is unreachable). -/
def processScale (d : DmmValue) : DmmValue :=
  if d.scaleFlags = [] then { d with scale := "", multiplier := 1 }
  else if 1 < d.scaleFlags.length then
    { d with scale := "", multiplier := 1, saneValue := false }
  else
    { d with
      scale := d.scaleFlags.headD "",
      multiplier := (scaleLookup (d.scaleFlags.headD "")).getD 1 }

/-- DmmValue.processMeasurement: exactly one measurement flag is required. -/
def processMeasurement (d : DmmValue) : DmmValue :=
  if d.measurementFlags.length ≠ 1 then { d with measurement := none, saneValue := false }
  else { d with measurement := some (d.measurementFlags.headD "") }

/-- DmmValue.processVal: an X glyph or a second dot clears saneValue; else
the string is parsed, and on success the value text is canonicalized and the
numeric value is the parsed number times the multiplier.  A parse failure
leaves numericVal as None without touching saneValue. -/
def processVal (d : DmmValue) : DmmValue :=
  if d.rawVal.data.contains 'X' then { d with numericVal := none, saneValue := false }
  else if 1 < d.rawVal.data.count '.' then { d with numericVal := none, saneValue := false }
  else
    match pyFloat d.rawVal with
    | some n => { d with val := pyFloatStr n, numericVal := some (n * d.multiplier) }
    | none => { d with numericVal := none }

/-- DmmValue.createTextExpression.  It only runs when saneValue is true, in
which case measurement is present (Python would raise TypeError on None; the
getD default is unreachable). -/
def createTextExpression (d : DmmValue) : DmmValue :=
  { d with
    text := d.deltaText ++ d.val ++ " " ++ d.scale ++ d.measurement.getD "" ++ d.ACDCText }

/-- The four process-step calls of DmmValue.__init__, in order. -/
def interpretSteps (v : String) (attribs : Attribs) (readErrors : Nat)
    (rawBytes : List Nat) : DmmValue :=
  processVal (processMeasurement (processScale (processFlags
    (initDmmValue v attribs readErrors rawBytes))))

/-- DmmValue.__init__: the four process steps in order, then the text
expression when the result is sane. -/
def mkDmmValue (v : String) (attribs : Attribs) (readErrors : Nat)
    (rawBytes : List Nat) : DmmValue :=
  let s := interpretSteps v attribs readErrors rawBytes
  if s.saneValue then createTextExpression s else s

/-! The transport and the read orchestration. -/

/-- The serial transport as a script of responses, one list of byte values
per read call.  An exhausted script or an empty response models a timeout. -/
abbrev Transport := List (List Nat)

/-- One self.ser.read(n) call: pops the next scripted response, truncated to
the requested count. -/
def tread (n : Nat) (t : Transport) : List Nat × Transport :=
  match t with
  | [] => ([], [])
  | r :: rest => (r.take n, rest)

/-- The DmmException subclasses raised by the engine. -/
inductive DmmError
  | noData
  | invalidSyncValue
  | readFailure
deriving Repr, DecidableEq

/-- Result of Dmm._synchronize: either the method returned, or it raised one
of the two synchronization exceptions.  The transport state at that moment is
kept in both cases, since a Python exception leaves the port cursor where it
was. -/
inductive SyncOutcome
  | ok
  | noData
  | invalidSyncValue
deriving Repr, DecidableEq

def bytesPerRead : Nat := 14

/-- Dmm._synchronize: read one byte; no byte means DmmNoData; a high nibble
of 0 or 15 means DmmInvalidSyncValue; otherwise discard the remaining
bytesPerRead - pos bytes (skipping the extra read when none are needed). -/
def synchronize (t : Transport) : SyncOutcome × Transport :=
  let (v, t1) := tread 1 t
  match v with
  | [n] =>
    let pos := n / 16
    if pos = 0 ∨ pos = 15 then (.invalidSyncValue, t1)
    else
      let bytesNeeded := bytesPerRead - pos
      if bytesNeeded ≠ 0 then (.ok, (tread bytesNeeded t1).2)
      else (.ok, t1)
  | _ => (.noData, t1)

/-- Lift a synchronize outcome into the exception flow of Dmm.read: the two
synchronization exceptions propagate out of read unchanged. -/
def syncExcept (r : SyncOutcome × Transport) : Except DmmError Transport :=
  match r.1 with
  | .ok => .ok r.2
  | .noData => .error .noData
  | .invalidSyncValue => .error .invalidSyncValue

/-- Frame position validation in Dmm.read: every byte's high nibble must
equal its 1-based position. -/
def frameOk (bs : List Nat) : Bool :=
  (bs.enumFrom 1).all (fun p => p.2 / 16 == p.1)

/-- The retry loop of Dmm.read, by remaining attempts.  A short read
resynchronizes once and retries; a full frame failing position validation
resynchronizes at the mismatched byte and then again after the scan loop
(two calls), and retries; an aligned frame succeeds immediately, returning
the frame and the 0-based attempt index; an exhausted budget raises
DmmReadFailure. -/
def readLoop : Nat → Nat → Transport → Except DmmError (List Nat × Nat × Transport)
  | _, 0, _ => .error .readFailure
  | att, fuel + 1, t =>
    let (bs, t1) := tread bytesPerRead t
    if bs.length ≠ bytesPerRead then
      (syncExcept (synchronize t1)).bind (readLoop (att + 1) fuel)
    else if frameOk bs then
      .ok (bs, att, t1)
    else
      (syncExcept (synchronize t1)).bind fun t2 =>
        (syncExcept (synchronize t2)).bind (readLoop (att + 1) fuel)

/-- The decode half of Dmm.read: assemble the digit string and the attribute
sets from an aligned frame and construct the DmmValue. -/
def decodeFrame (frame : List Nat) (readAttempt : Nat) : DmmValue :=
  mkDmmValue (assembleVal frame) (readAttribs frame) readAttempt frame

/-- Dmm.read with the given retry budget. -/
def dmmRead (retries : Nat) (t : Transport) : Except DmmError (DmmValue × Transport) :=
  match readLoop 0 retries t with
  | .error e => .error e
  | .ok (bs, att, t1) => .ok (decodeFrame bs att, t1)

/-- The glyphs that can appear in an assembled digit string: digit-table
outputs, the X sentinel, and the punctuation glyphs of the digit cells. -/
def glyphAlphabet : List Char :=
  ['0', '1', '2', '3', '4', '5', '6', '7', '8', '9', '-', '.', ' ', 'L', 'X']

/-- Modelled from the claim wording, for comparison with digitLookup: the
digit table as the C6 claim lists it, all other pairs giving X. -/
def specDigitGlyph (p q : Nat) : Char :=
  if p = 0 ∧ q = 5 then '1'
  else if p = 5 ∧ q = 11 then '2'
  else if p = 1 ∧ q = 15 then '3'
  else if p = 2 ∧ q = 7 then '4'
  else if p = 3 ∧ q = 14 then '5'
  else if p = 7 ∧ q = 14 then '6'
  else if p = 1 ∧ q = 5 then '7'
  else if p = 7 ∧ q = 15 then '8'
  else if p = 3 ∧ q = 15 then '9'
  else if p = 7 ∧ q = 13 then '0'
  else if p = 6 ∧ q = 8 then 'L'
  else if p = 0 ∧ q = 0 then ' '
  else 'X'

/-! Helper lemmas: field characterizations of the process steps. -/

section ProcessLemmas

variable (d : DmmValue)

lemma processFlags_saneValue :
    (processFlags d).saneValue =
      (d.saneValue && !(d.flags.contains ("AC") && d.flags.contains ("DC"))) := by
  simp only [processFlags]
  generalize (d.flags.contains ("AC") && d.flags.contains ("DC")) = b
  cases b <;> cases d.saneValue <;> rfl

lemma processFlags_rawVal : (processFlags d).rawVal = d.rawVal := rfl

lemma processFlags_val : (processFlags d).val = d.val := rfl

lemma processFlags_scaleFlags : (processFlags d).scaleFlags = d.scaleFlags := rfl

lemma processFlags_measurementFlags :
    (processFlags d).measurementFlags = d.measurementFlags := rfl

lemma processFlags_multiplier : (processFlags d).multiplier = d.multiplier := rfl

lemma processFlags_text : (processFlags d).text = d.text := rfl

lemma processFlags_numericVal : (processFlags d).numericVal = d.numericVal := rfl

lemma processFlags_ACDC : (processFlags d).ACDC = acdcOf d.flags := rfl

lemma processFlags_ACDCText :
    (processFlags d).ACDCText =
      (match acdcOf d.flags with
       | some s => " " ++ s
       | none => "") := rfl

lemma processFlags_deltaText :
    (processFlags d).deltaText =
      (if d.flags.contains ("REL delta") then "delta " else "") := rfl

lemma processScale_saneValue :
    (processScale d).saneValue = (d.saneValue && decide (d.scaleFlags.length ≤ 1)) := by
  simp only [processScale]
  split_ifs with h1 h2
  · simp [h1]
  · have h : ¬ d.scaleFlags.length ≤ 1 := by omega
    simp [h]
  · have h : d.scaleFlags.length ≤ 1 := by omega
    simp [h]

lemma processScale_rawVal : (processScale d).rawVal = d.rawVal := by
  simp only [processScale]; split_ifs <;> rfl

lemma processScale_val : (processScale d).val = d.val := by
  simp only [processScale]; split_ifs <;> rfl

lemma processScale_flags : (processScale d).flags = d.flags := by
  simp only [processScale]; split_ifs <;> rfl

lemma processScale_measurementFlags :
    (processScale d).measurementFlags = d.measurementFlags := by
  simp only [processScale]; split_ifs <;> rfl

lemma processScale_text : (processScale d).text = d.text := by
  simp only [processScale]; split_ifs <;> rfl

lemma processScale_numericVal : (processScale d).numericVal = d.numericVal := by
  simp only [processScale]; split_ifs <;> rfl

lemma processScale_ACDC : (processScale d).ACDC = d.ACDC := by
  simp only [processScale]; split_ifs <;> rfl

lemma processScale_ACDCText : (processScale d).ACDCText = d.ACDCText := by
  simp only [processScale]; split_ifs <;> rfl

lemma processScale_deltaText : (processScale d).deltaText = d.deltaText := by
  simp only [processScale]; split_ifs <;> rfl

lemma processScale_multiplier_nil (h : d.scaleFlags = []) :
    (processScale d).multiplier = 1 := by
  simp only [processScale]
  simp [h]

lemma processScale_scale_nil (h : d.scaleFlags = []) : (processScale d).scale = "" := by
  simp only [processScale]
  simp [h]

lemma processScale_scale_single (s : String) (h : d.scaleFlags = [s]) :
    (processScale d).scale = s := by
  simp only [processScale]
  simp [h]

lemma processScale_multiplier_single (s : String) (h : d.scaleFlags = [s]) :
    (processScale d).multiplier = (scaleLookup s).getD 1 := by
  simp only [processScale]
  simp [h]

lemma processMeasurement_saneValue :
    (processMeasurement d).saneValue =
      (d.saneValue && decide (d.measurementFlags.length = 1)) := by
  simp only [processMeasurement]
  split_ifs with h
  · simp [h]
  · simp only [Ne, not_not] at h
    simp [h]

lemma processMeasurement_rawVal : (processMeasurement d).rawVal = d.rawVal := by
  simp only [processMeasurement]; split_ifs <;> rfl

lemma processMeasurement_val : (processMeasurement d).val = d.val := by
  simp only [processMeasurement]; split_ifs <;> rfl

lemma processMeasurement_multiplier : (processMeasurement d).multiplier = d.multiplier := by
  simp only [processMeasurement]; split_ifs <;> rfl

lemma processMeasurement_scale : (processMeasurement d).scale = d.scale := by
  simp only [processMeasurement]; split_ifs <;> rfl

lemma processMeasurement_text : (processMeasurement d).text = d.text := by
  simp only [processMeasurement]; split_ifs <;> rfl

lemma processMeasurement_numericVal : (processMeasurement d).numericVal = d.numericVal := by
  simp only [processMeasurement]; split_ifs <;> rfl

lemma processMeasurement_ACDC : (processMeasurement d).ACDC = d.ACDC := by
  simp only [processMeasurement]; split_ifs <;> rfl

lemma processMeasurement_ACDCText : (processMeasurement d).ACDCText = d.ACDCText := by
  simp only [processMeasurement]; split_ifs <;> rfl

lemma processMeasurement_deltaText : (processMeasurement d).deltaText = d.deltaText := by
  simp only [processMeasurement]; split_ifs <;> rfl

lemma processVal_saneValue :
    (processVal d).saneValue =
      (d.saneValue && !(d.rawVal.data.contains 'X')
        && decide (d.rawVal.data.count '.' ≤ 1)) := by
  simp only [processVal]
  split_ifs with h1 h2
  · simp only [h1]
    simp
  · have hx : d.rawVal.data.contains 'X' = false := by
      cases hv : d.rawVal.data.contains 'X'
      · rfl
      · exact absurd hv h1
    have h : ¬ d.rawVal.data.count '.' ≤ 1 := by omega
    simp only [hx]
    simp [h]
  · have hx : d.rawVal.data.contains 'X' = false := by
      cases hv : d.rawVal.data.contains 'X'
      · rfl
      · exact absurd hv h1
    have h : d.rawVal.data.count '.' ≤ 1 := by omega
    cases hp : pyFloat d.rawVal <;> simp only [hx, hp] <;> simp [h]

lemma processVal_rawVal : (processVal d).rawVal = d.rawVal := by
  simp only [processVal]
  split_ifs <;> first
    | rfl
    | (cases hp : pyFloat d.rawVal <;> rfl)

lemma processVal_multiplier : (processVal d).multiplier = d.multiplier := by
  simp only [processVal]
  split_ifs <;> first
    | rfl
    | (cases hp : pyFloat d.rawVal <;> rfl)

lemma processVal_scale : (processVal d).scale = d.scale := by
  simp only [processVal]
  split_ifs <;> first
    | rfl
    | (cases hp : pyFloat d.rawVal <;> rfl)

lemma processVal_text : (processVal d).text = d.text := by
  simp only [processVal]
  split_ifs <;> first
    | rfl
    | (cases hp : pyFloat d.rawVal <;> rfl)

lemma processVal_measurement : (processVal d).measurement = d.measurement := by
  simp only [processVal]
  split_ifs <;> first
    | rfl
    | (cases hp : pyFloat d.rawVal <;> rfl)

lemma processVal_ACDC : (processVal d).ACDC = d.ACDC := by
  simp only [processVal]
  split_ifs <;> first
    | rfl
    | (cases hp : pyFloat d.rawVal <;> rfl)

lemma processVal_ACDCText : (processVal d).ACDCText = d.ACDCText := by
  simp only [processVal]
  split_ifs <;> first
    | rfl
    | (cases hp : pyFloat d.rawVal <;> rfl)

lemma processVal_deltaText : (processVal d).deltaText = d.deltaText := by
  simp only [processVal]
  split_ifs <;> first
    | rfl
    | (cases hp : pyFloat d.rawVal <;> rfl)

lemma processVal_numericVal_parse (hx : d.rawVal.data.contains 'X' = false)
    (hd : d.rawVal.data.count '.' ≤ 1) :
    (processVal d).numericVal = (pyFloat d.rawVal).map (fun n => n * d.multiplier) := by
  have h2 : ¬ 1 < d.rawVal.data.count '.' := by omega
  simp only [processVal, hx, h2]
  cases hp : pyFloat d.rawVal <;> simp [hp]

lemma processVal_val_parse_none (hx : d.rawVal.data.contains 'X' = false)
    (hd : d.rawVal.data.count '.' ≤ 1) (hp : pyFloat d.rawVal = none) :
    (processVal d).val = d.val := by
  have h2 : ¬ 1 < d.rawVal.data.count '.' := by omega
  simp only [processVal, hx, h2, hp]
  simp

lemma processVal_val_parse_some (n : ℚ) (hx : d.rawVal.data.contains 'X' = false)
    (hd : d.rawVal.data.count '.' ≤ 1) (hp : pyFloat d.rawVal = some n) :
    (processVal d).val = pyFloatStr n := by
  have h2 : ¬ 1 < d.rawVal.data.count '.' := by omega
  simp only [processVal, hx, h2, hp]
  simp

lemma createTextExpression_saneValue :
    (createTextExpression d).saneValue = d.saneValue := rfl

lemma createTextExpression_numericVal :
    (createTextExpression d).numericVal = d.numericVal := rfl

lemma createTextExpression_multiplier :
    (createTextExpression d).multiplier = d.multiplier := rfl

lemma createTextExpression_scale : (createTextExpression d).scale = d.scale := rfl

lemma createTextExpression_val : (createTextExpression d).val = d.val := rfl

lemma createTextExpression_ACDC : (createTextExpression d).ACDC = d.ACDC := rfl

lemma createTextExpression_ACDCText :
    (createTextExpression d).ACDCText = d.ACDCText := rfl

lemma createTextExpression_text :
    (createTextExpression d).text =
      d.deltaText ++ d.val ++ " " ++ d.scale ++ d.measurement.getD "" ++ d.ACDCText := rfl

end ProcessLemmas

/-! Field characterizations of the finished DmmValue. -/

section MkLemmas

variable (v : String) (a : Attribs) (ra : Nat) (rb : List Nat)

lemma interpretSteps_saneValue :
    (interpretSteps v a ra rb).saneValue =
      (!(a.flags.contains ("AC") && a.flags.contains ("DC"))
        && decide (a.scale.length ≤ 1)
        && decide (a.measure.length = 1)
        && !(v.data.contains 'X')
        && decide (v.data.count '.' ≤ 1)) := by
  simp only [interpretSteps, processVal_saneValue, processMeasurement_saneValue,
    processScale_saneValue, processFlags_saneValue, processMeasurement_rawVal,
    processScale_rawVal, processFlags_rawVal, processScale_measurementFlags,
    processFlags_measurementFlags, processFlags_scaleFlags, initDmmValue,
    Bool.true_and]

lemma interpretSteps_rawVal : (interpretSteps v a ra rb).rawVal = v := by
  simp only [interpretSteps, processVal_rawVal, processMeasurement_rawVal,
    processScale_rawVal, processFlags_rawVal, initDmmValue]

lemma interpretSteps_text : (interpretSteps v a ra rb).text = "Invalid Value" := by
  simp only [interpretSteps, processVal_text, processMeasurement_text, processScale_text,
    processFlags_text, initDmmValue]

lemma interpretSteps_ACDC : (interpretSteps v a ra rb).ACDC = acdcOf a.flags := by
  simp only [interpretSteps, processVal_ACDC, processMeasurement_ACDC, processScale_ACDC,
    processFlags_ACDC, processFlags_scaleFlags, initDmmValue]

lemma interpretSteps_ACDCText :
    (interpretSteps v a ra rb).ACDCText =
      (match acdcOf a.flags with
       | some s => " " ++ s
       | none => "") := by
  simp only [interpretSteps, processVal_ACDCText, processMeasurement_ACDCText,
    processScale_ACDCText, processFlags_ACDCText, initDmmValue]

lemma interpretSteps_deltaText :
    (interpretSteps v a ra rb).deltaText =
      (if a.flags.contains ("REL delta") then "delta " else "") := by
  simp only [interpretSteps, processVal_deltaText, processMeasurement_deltaText,
    processScale_deltaText, processFlags_deltaText, initDmmValue]

lemma interpretSteps_multiplier_nil (h : a.scale = []) :
    (interpretSteps v a ra rb).multiplier = 1 := by
  simp only [interpretSteps, processVal_multiplier, processMeasurement_multiplier]
  apply processScale_multiplier_nil
  simp [processFlags_scaleFlags, initDmmValue, h]

lemma interpretSteps_scale_nil (h : a.scale = []) :
    (interpretSteps v a ra rb).scale = "" := by
  simp only [interpretSteps, processVal_scale, processMeasurement_scale]
  apply processScale_scale_nil
  simp [processFlags_scaleFlags, initDmmValue, h]

lemma interpretSteps_multiplier_single (s : String) (h : a.scale = [s]) :
    (interpretSteps v a ra rb).multiplier = (scaleLookup s).getD 1 := by
  simp only [interpretSteps, processVal_multiplier, processMeasurement_multiplier]
  apply processScale_multiplier_single
  simp [processFlags_scaleFlags, initDmmValue, h]

lemma interpretSteps_scale_single (s : String) (h : a.scale = [s]) :
    (interpretSteps v a ra rb).scale = s := by
  simp only [interpretSteps, processVal_scale, processMeasurement_scale]
  apply processScale_scale_single
  simp [processFlags_scaleFlags, initDmmValue, h]

lemma interpretSteps_numericVal_parse (hx : v.data.contains 'X' = false)
    (hd : v.data.count '.' ≤ 1) :
    (interpretSteps v a ra rb).numericVal =
      (pyFloat v).map (fun n => n * (interpretSteps v a ra rb).multiplier) := by
  have hr : (processMeasurement (processScale (processFlags
      (initDmmValue v a ra rb)))).rawVal = v := by
    simp only [processMeasurement_rawVal, processScale_rawVal, processFlags_rawVal,
      initDmmValue]
  have := processVal_numericVal_parse
    (processMeasurement (processScale (processFlags (initDmmValue v a ra rb))))
    (by rw [hr]; exact hx) (by rw [hr]; exact hd)
  rw [hr] at this
  simp only [interpretSteps, this, processVal_multiplier]

lemma interpretSteps_val_parse_none (hx : v.data.contains 'X' = false)
    (hd : v.data.count '.' ≤ 1) (hp : pyFloat v = none) :
    (interpretSteps v a ra rb).val = v := by
  have hr : (processMeasurement (processScale (processFlags
      (initDmmValue v a ra rb)))).rawVal = v := by
    simp only [processMeasurement_rawVal, processScale_rawVal, processFlags_rawVal,
      initDmmValue]
  have := processVal_val_parse_none
    (processMeasurement (processScale (processFlags (initDmmValue v a ra rb))))
    (by rw [hr]; exact hx) (by rw [hr]; exact hd) (by rw [hr]; exact hp)
  simp only [interpretSteps]
  rw [this, processMeasurement_val, processScale_val, processFlags_val]
  rfl

lemma interpretSteps_val_parse_some (n : ℚ) (hx : v.data.contains 'X' = false)
    (hd : v.data.count '.' ≤ 1) (hp : pyFloat v = some n) :
    (interpretSteps v a ra rb).val = pyFloatStr n := by
  have hr : (processMeasurement (processScale (processFlags
      (initDmmValue v a ra rb)))).rawVal = v := by
    simp only [processMeasurement_rawVal, processScale_rawVal, processFlags_rawVal,
      initDmmValue]
  have := processVal_val_parse_some
    (processMeasurement (processScale (processFlags (initDmmValue v a ra rb)))) n
    (by rw [hr]; exact hx) (by rw [hr]; exact hd) (by rw [hr]; exact hp)
  simp only [interpretSteps, this]

lemma mkDmmValue_saneValue :
    (mkDmmValue v a ra rb).saneValue = (interpretSteps v a ra rb).saneValue := by
  simp only [mkDmmValue]
  split
  · exact createTextExpression_saneValue _
  · rfl

lemma mkDmmValue_numericVal :
    (mkDmmValue v a ra rb).numericVal = (interpretSteps v a ra rb).numericVal := by
  simp only [mkDmmValue]
  split
  · exact createTextExpression_numericVal _
  · rfl

lemma mkDmmValue_multiplier :
    (mkDmmValue v a ra rb).multiplier = (interpretSteps v a ra rb).multiplier := by
  simp only [mkDmmValue]
  split
  · exact createTextExpression_multiplier _
  · rfl

lemma mkDmmValue_scale :
    (mkDmmValue v a ra rb).scale = (interpretSteps v a ra rb).scale := by
  simp only [mkDmmValue]
  split
  · exact createTextExpression_scale _
  · rfl

lemma mkDmmValue_val :
    (mkDmmValue v a ra rb).val = (interpretSteps v a ra rb).val := by
  simp only [mkDmmValue]
  split
  · exact createTextExpression_val _
  · rfl

lemma mkDmmValue_ACDC :
    (mkDmmValue v a ra rb).ACDC = (interpretSteps v a ra rb).ACDC := by
  simp only [mkDmmValue]
  split
  · exact createTextExpression_ACDC _
  · rfl

lemma mkDmmValue_ACDCText :
    (mkDmmValue v a ra rb).ACDCText = (interpretSteps v a ra rb).ACDCText := by
  simp only [mkDmmValue]
  split
  · exact createTextExpression_ACDCText _
  · rfl

lemma mkDmmValue_text_unsane (h : (mkDmmValue v a ra rb).saneValue = false) :
    (mkDmmValue v a ra rb).text = "Invalid Value" := by
  have hs : (interpretSteps v a ra rb).saneValue = false := by
    rw [← mkDmmValue_saneValue]; exact h
  simp only [mkDmmValue, hs]
  simp only [Bool.false_eq_true, if_false]
  exact interpretSteps_text v a ra rb

lemma mkDmmValue_text_sane (h : (mkDmmValue v a ra rb).saneValue = true) :
    (mkDmmValue v a ra rb).text =
      (interpretSteps v a ra rb).deltaText ++ (interpretSteps v a ra rb).val ++ " "
        ++ (interpretSteps v a ra rb).scale
        ++ (interpretSteps v a ra rb).measurement.getD ""
        ++ (interpretSteps v a ra rb).ACDCText := by
  have hs : (interpretSteps v a ra rb).saneValue = true := by
    rw [← mkDmmValue_saneValue]; exact h
  simp only [mkDmmValue, hs, if_true]
  exact createTextExpression_text _

end MkLemmas

/-! Auxiliary facts for the digit-table refinement. -/

lemma readDigit_mod (b1 b2 : Nat) : readDigit b1 b2 = readDigit (b1 % 16) (b2 % 16) := by
  have h1 : b1 % 16 % 16 = b1 % 16 := Nat.mod_mod_of_dvd b1 dvd_rfl
  have h2 : b2 % 16 % 16 = b2 % 16 := Nat.mod_mod_of_dvd b2 dvd_rfl
  simp [readDigit, h1, h2]

lemma readDigit_glyph_bounded :
    ∀ (x y : Fin 16),
      (readDigit x.val y.val).2 = specDigitGlyph (x.val % 16 % 8) (y.val % 16) := by
  decide

/-! The claims. -/

/-- The numeric value of end-to-end scenario 2, computed once: the parse of
-1.234 succeeds and the multiplier is 1, so the numeric value is present
even though the AC/DC contradiction has already cleared saneValue. -/
lemma scenario2_numericVal :
    (mkDmmValue "-1.234" ⟨["AC", "DC"], [], ["Ohms"], []⟩ 0 []).numericVal =
      some ((-1234 : ℚ) / 1000) := by
  have h1 : (mkDmmValue "-1.234" ⟨["AC", "DC"], [], ["Ohms"], []⟩ 0 []).numericVal =
      (pyFloat "-1.234").map (fun n =>
        n * (mkDmmValue "-1.234" ⟨["AC", "DC"], [], ["Ohms"], []⟩ 0 []).multiplier) := by
    rw [mkDmmValue_numericVal, mkDmmValue_multiplier]
    exact interpretSteps_numericVal_parse _ _ _ _ (by decide) (by decide)
  have h2 : (mkDmmValue "-1.234" ⟨["AC", "DC"], [], ["Ohms"], []⟩ 0 []).multiplier = 1 := by
    rw [mkDmmValue_multiplier]
    exact interpretSteps_multiplier_nil _ _ _ _ rfl
  have hv : pyFloat "-1.234" =
      some (-((digitsToNat ['1'] : ℚ) + (digitsToNat ['2', '3', '4'] : ℚ) / 10 ^ 3)) := rfl
  have hd1 : digitsToNat ['1'] = 1 := rfl
  have hd2 : digitsToNat ['2', '3', '4'] = 234 := rfl
  simp only [h1, h2, hv, hd1, hd2, Option.map_some']
  norm_num

/-- Claim C1 counterexample: in end-to-end scenario 2 (digits -1.234, no
scale flags, measurement Ohms, AC and DC both set) the constructed value has
sane=false and the sentinel text, but the numeric value is PRESENT (equal to
-1.234), contradicting the claim that sane=false forces an absent numeric
value. -/
theorem claim_C1_counterexample :
    (mkDmmValue "-1.234" ⟨["AC", "DC"], [], ["Ohms"], []⟩ 0 []).saneValue = false ∧
    (mkDmmValue "-1.234" ⟨["AC", "DC"], [], ["Ohms"], []⟩ 0 []).text = "Invalid Value" ∧
    (mkDmmValue "-1.234" ⟨["AC", "DC"], [], ["Ohms"], []⟩ 0 []).numericVal =
      some ((-1234 : ℚ) / 1000) := by
  refine ⟨by decide, by decide, scenario2_numericVal⟩

/-- Claim C1 (amended): whenever construction ends with sane=false the
display text is exactly the sentinel Invalid Value, but the numeric value is
not forced absent: in scenario 2 (digits -1.234, no scale flags, measurement
Ohms, AC and DC both set) the result has sane=false, the sentinel text, and
numeric value -1.234 still present. -/
theorem claim_C1_theorem :
    (∀ (v : String) (a : Attribs) (ra : Nat) (rb : List Nat),
      (mkDmmValue v a ra rb).saneValue = false →
        (mkDmmValue v a ra rb).text = "Invalid Value") ∧
    ((mkDmmValue "-1.234" ⟨["AC", "DC"], [], ["Ohms"], []⟩ 0 []).saneValue = false ∧
     (mkDmmValue "-1.234" ⟨["AC", "DC"], [], ["Ohms"], []⟩ 0 []).text = "Invalid Value" ∧
     (mkDmmValue "-1.234" ⟨["AC", "DC"], [], ["Ohms"], []⟩ 0 []).numericVal =
       some ((-1234 : ℚ) / 1000)) := by
  refine ⟨fun v a ra rb h => mkDmmValue_text_unsane v a ra rb h, by decide, by decide,
    scenario2_numericVal⟩

/-- Witness for claim C1: the universal part applied to a concrete non-sane
input. -/
theorem claim_C1_witness :
    (mkDmmValue "X" ⟨[], [], [], []⟩ 0 []).saneValue = false ∧
    (mkDmmValue "X" ⟨[], [], [], []⟩ 0 []).text = "Invalid Value" :=
  ⟨by decide, claim_C1_theorem.1 "X" ⟨[], [], [], []⟩ 0 [] (by decide)⟩

/-- Claim C3 counterexample: a RawDecode with an empty scale-flag set, one
measurement flag and parseable digits is sane, contradicting the claim that
zero scale flags force sane=false. -/
theorem claim_C3_counterexample :
    ((⟨[], [], ["volts"], []⟩ : Attribs)).scale = [] ∧
    (mkDmmValue "1" ⟨[], [], ["volts"], []⟩ 0 []).saneValue = true := by
  refine ⟨rfl, by decide⟩

/-- Claim C3 (amended): two or more scale flags force sane=false, but an
empty scale-flag set does not: the scale step leaves sanity untouched on an
empty set, and a zero-scale reading can be sane. -/
theorem claim_C3_theorem :
    (∀ (v : String) (a : Attribs) (ra : Nat) (rb : List Nat),
      2 ≤ a.scale.length → (mkDmmValue v a ra rb).saneValue = false) ∧
    (∀ (d : DmmValue), d.scaleFlags = [] → (processScale d).saneValue = d.saneValue) ∧
    (mkDmmValue "1" ⟨[], [], ["volts"], []⟩ 0 []).saneValue = true := by
  refine ⟨?_, ?_, by decide⟩
  · intro v a ra rb h
    rw [mkDmmValue_saneValue, interpretSteps_saneValue]
    have hle : ¬ a.scale.length ≤ 1 := by omega
    simp [hle]
  · intro d h
    rw [processScale_saneValue]
    simp [h]

/-- Witness for claim C3: the universal part applied to a two-scale-flag
input. -/
theorem claim_C3_witness :
    (mkDmmValue "1" ⟨[], ["kilo", "mega"], ["volts"], []⟩ 0 []).saneValue = false :=
  claim_C3_theorem.1 "1" ⟨[], ["kilo", "mega"], ["volts"], []⟩ 0 [] (by decide)

/-- Claim C4: zero scale flags give multiplier 1 and an empty scale label,
with the scale step leaving sanity untouched; more than one scale flag
forces sane=false; exactly one scale flag gives exactly the table multiplier
(nano 1e-9, micro 1e-6, milli 1e-3, kilo 1000, mega 1e6) and that flag name
as the scale label. -/
theorem claim_C4_theorem :
    (∀ (v : String) (a : Attribs) (ra : Nat) (rb : List Nat), a.scale = [] →
      (mkDmmValue v a ra rb).multiplier = 1 ∧ (mkDmmValue v a ra rb).scale = "") ∧
    (∀ (d : DmmValue), d.scaleFlags = [] → (processScale d).saneValue = d.saneValue) ∧
    (∀ (v : String) (a : Attribs) (ra : Nat) (rb : List Nat),
      1 < a.scale.length → (mkDmmValue v a ra rb).saneValue = false) ∧
    (∀ (v : String) (a : Attribs) (ra : Nat) (rb : List Nat) (s : String), a.scale = [s] →
      (mkDmmValue v a ra rb).scale = s) ∧
    (∀ (v : String) (a : Attribs) (ra : Nat) (rb : List Nat), a.scale = ["nano"] →
      (mkDmmValue v a ra rb).multiplier = 1 / 1000000000) ∧
    (∀ (v : String) (a : Attribs) (ra : Nat) (rb : List Nat), a.scale = ["micro"] →
      (mkDmmValue v a ra rb).multiplier = 1 / 1000000) ∧
    (∀ (v : String) (a : Attribs) (ra : Nat) (rb : List Nat), a.scale = ["milli"] →
      (mkDmmValue v a ra rb).multiplier = 1 / 1000) ∧
    (∀ (v : String) (a : Attribs) (ra : Nat) (rb : List Nat), a.scale = ["kilo"] →
      (mkDmmValue v a ra rb).multiplier = 1000) ∧
    (∀ (v : String) (a : Attribs) (ra : Nat) (rb : List Nat), a.scale = ["mega"] →
      (mkDmmValue v a ra rb).multiplier = 1000000) := by
  refine ⟨?_, ?_, ?_, ?_, ?_, ?_, ?_, ?_, ?_⟩
  · intro v a ra rb h
    exact ⟨by rw [mkDmmValue_multiplier]; exact interpretSteps_multiplier_nil v a ra rb h,
      by rw [mkDmmValue_scale]; exact interpretSteps_scale_nil v a ra rb h⟩
  · intro d h
    rw [processScale_saneValue]
    simp [h]
  · intro v a ra rb h
    rw [mkDmmValue_saneValue, interpretSteps_saneValue]
    have hle : ¬ a.scale.length ≤ 1 := by omega
    simp [hle]
  · intro v a ra rb s h
    rw [mkDmmValue_scale]
    exact interpretSteps_scale_single v a ra rb s h
  · intro v a ra rb h
    rw [mkDmmValue_multiplier, interpretSteps_multiplier_single v a ra rb "nano" h]
    rfl
  · intro v a ra rb h
    rw [mkDmmValue_multiplier, interpretSteps_multiplier_single v a ra rb "micro" h]
    rfl
  · intro v a ra rb h
    rw [mkDmmValue_multiplier, interpretSteps_multiplier_single v a ra rb "milli" h]
    rfl
  · intro v a ra rb h
    rw [mkDmmValue_multiplier, interpretSteps_multiplier_single v a ra rb "kilo" h]
    rfl
  · intro v a ra rb h
    rw [mkDmmValue_multiplier, interpretSteps_multiplier_single v a ra rb "mega" h]
    rfl

/-- Witness for claim C4: the kilo case applied to a concrete input gives
the multiplier 1000 exactly. -/
theorem claim_C4_witness :
    (mkDmmValue "5" ⟨[], ["kilo"], ["volts"], []⟩ 0 []).multiplier = 1000 :=
  claim_C4_theorem.2.2.2.2.2.2.2.1 "5" ⟨[], ["kilo"], ["volts"], []⟩ 0 [] rfl

/-- Claim C5: AC and DC together force sane=false; exactly one of them is
recorded with its suffix text; neither gives no suffix; and a measurement
flag count other than one forces sane=false. -/
theorem claim_C5_theorem :
    (∀ (v : String) (a : Attribs) (ra : Nat) (rb : List Nat),
      a.flags.contains ("AC") = true → a.flags.contains ("DC") = true →
        (mkDmmValue v a ra rb).saneValue = false) ∧
    (∀ (v : String) (a : Attribs) (ra : Nat) (rb : List Nat),
      a.flags.contains ("AC") = true → a.flags.contains ("DC") = false →
        (mkDmmValue v a ra rb).ACDC = some "AC" ∧
        (mkDmmValue v a ra rb).ACDCText = " AC") ∧
    (∀ (v : String) (a : Attribs) (ra : Nat) (rb : List Nat),
      a.flags.contains ("DC") = true → a.flags.contains ("AC") = false →
        (mkDmmValue v a ra rb).ACDC = some "DC" ∧
        (mkDmmValue v a ra rb).ACDCText = " DC") ∧
    (∀ (v : String) (a : Attribs) (ra : Nat) (rb : List Nat),
      a.flags.contains ("AC") = false → a.flags.contains ("DC") = false →
        (mkDmmValue v a ra rb).ACDCText = "") ∧
    (∀ (v : String) (a : Attribs) (ra : Nat) (rb : List Nat),
      a.measure.length ≠ 1 → (mkDmmValue v a ra rb).saneValue = false) := by
  refine ⟨?_, ?_, ?_, ?_, ?_⟩
  · intro v a ra rb hAC hDC
    rw [mkDmmValue_saneValue, interpretSteps_saneValue, hAC, hDC]
    rfl
  · intro v a ra rb hAC hDC
    constructor
    · rw [mkDmmValue_ACDC, interpretSteps_ACDC, acdcOf, hAC, hDC]
      rfl
    · rw [mkDmmValue_ACDCText, interpretSteps_ACDCText, acdcOf, hAC, hDC]
      rfl
  · intro v a ra rb hDC hAC
    constructor
    · rw [mkDmmValue_ACDC, interpretSteps_ACDC, acdcOf, hDC]
      rfl
    · rw [mkDmmValue_ACDCText, interpretSteps_ACDCText, acdcOf, hDC]
      rfl
  · intro v a ra rb hAC hDC
    rw [mkDmmValue_ACDCText, interpretSteps_ACDCText, acdcOf, hAC, hDC]
    rfl
  · intro v a ra rb h
    rw [mkDmmValue_saneValue, interpretSteps_saneValue]
    simp [h]

/-- Witness for claim C5: the AC-only case applied to a concrete input. -/
theorem claim_C5_witness :
    (mkDmmValue "2" ⟨["AC"], [], ["volts"], []⟩ 0 []).ACDC = some "AC" ∧
    (mkDmmValue "2" ⟨["AC"], [], ["volts"], []⟩ 0 []).ACDCText = " AC" :=
  claim_C5_theorem.2.1 "2" ⟨["AC"], [], ["volts"], []⟩ 0 [] (by decide) (by decide)

/-- Claim C9: an assembled string with no X glyph and at most one dot that
nevertheless fails the decimal parse leaves the numeric value absent and the
value text unchanged, while the sanity flag stays exactly what the flag,
scale and measurement checks made it (the parse failure alone never clears
it). -/
theorem claim_C9_theorem (v : String) (a : Attribs) (ra : Nat) (rb : List Nat)
    (hwf : ∀ c ∈ v.data, c ∈ glyphAlphabet)
    (hx : v.data.contains 'X' = false)
    (hd : v.data.count '.' ≤ 1)
    (hp : pyFloat v = none) :
    (mkDmmValue v a ra rb).numericVal = none ∧
    (mkDmmValue v a ra rb).val = v ∧
    (mkDmmValue v a ra rb).saneValue =
      (processMeasurement (processScale (processFlags
        (initDmmValue v a ra rb)))).saneValue := by
  have hr : (processMeasurement (processScale (processFlags
      (initDmmValue v a ra rb)))).rawVal = v := by
    simp only [processMeasurement_rawVal, processScale_rawVal, processFlags_rawVal,
      initDmmValue]
  refine ⟨?_, ?_, ?_⟩
  · rw [mkDmmValue_numericVal, interpretSteps_numericVal_parse v a ra rb hx hd, hp]
    rfl
  · rw [mkDmmValue_val]
    exact interpretSteps_val_parse_none v a ra rb hx hd hp
  · rw [mkDmmValue_saneValue]
    simp only [interpretSteps, processVal_saneValue, hr, hx, hd]
    simp [hd]

/-- Witness for claim C9: the glyph L defeats the parse while the reading
stays sane. -/
theorem claim_C9_witness :
    (mkDmmValue "L000" ⟨[], [], ["volts"], []⟩ 0 []).numericVal = none ∧
    (mkDmmValue "L000" ⟨[], [], ["volts"], []⟩ 0 []).val = "L000" ∧
    (mkDmmValue "L000" ⟨[], [], ["volts"], []⟩ 0 []).saneValue =
      (processMeasurement (processScale (processFlags
        (initDmmValue "L000" ⟨[], [], ["volts"], []⟩ 0 [])))).saneValue :=
  claim_C9_theorem "L000" ⟨[], [], ["volts"], []⟩ 0 [] (by decide) (by decide)
    (by decide) (by decide)

/-- Claim C6: the decoded glyph of every byte pair agrees with the fixed
digit table as the claim lists it (pairs outside the table give the sentinel
X, with no failure), and an X anywhere in the assembled value string forces
sane=false. -/
theorem claim_C6_theorem :
    (∀ (b1 b2 : Nat), (readDigit b1 b2).2 = specDigitGlyph (b1 % 16 % 8) (b2 % 16)) ∧
    (∀ (v : String) (a : Attribs) (ra : Nat) (rb : List Nat),
      v.data.contains 'X' = true → (mkDmmValue v a ra rb).saneValue = false) := by
  constructor
  · intro b1 b2
    have hx : b1 % 16 < 16 := Nat.mod_lt _ (by norm_num)
    have hy : b2 % 16 < 16 := Nat.mod_lt _ (by norm_num)
    have hb := readDigit_glyph_bounded ⟨b1 % 16, hx⟩ ⟨b2 % 16, hy⟩
    have h1 : b1 % 16 % 16 = b1 % 16 := Nat.mod_mod_of_dvd b1 dvd_rfl
    have h2 : b2 % 16 % 16 = b2 % 16 := Nat.mod_mod_of_dvd b2 dvd_rfl
    rw [readDigit_mod]
    simpa [h1, h2] using hb
  · intro v a ra rb h
    rw [mkDmmValue_saneValue, interpretSteps_saneValue, h]
    simp

/-- Witness for claim C6: an X glyph in a concrete assembled string makes
the result non-sane. -/
theorem claim_C6_witness :
    (mkDmmValue "8X88" ⟨[], [], ["volts"], []⟩ 0 []).saneValue = false :=
  claim_C6_theorem.2 "8X88" ⟨[], [], ["volts"], []⟩ 0 [] (by decide)

/-- Claim C8: synchronize reads one byte; no byte gives NoData; a high
nibble of 0 or 15 gives InvalidSyncValue with nothing consumed beyond that
byte; a position p in 1..13 discards the next 14 - p bytes in one further
(possibly short) read; p = 14 performs no further read. -/
theorem claim_C8_theorem :
    (∀ (t t1 : Transport), tread 1 t = ([], t1) → synchronize t = (.noData, t1)) ∧
    (∀ (t t1 : Transport) (n : Nat), tread 1 t = ([n], t1) →
      n / 16 = 0 ∨ n / 16 = 15 → synchronize t = (.invalidSyncValue, t1)) ∧
    (∀ (t t1 : Transport) (n : Nat), tread 1 t = ([n], t1) →
      1 ≤ n / 16 → n / 16 ≤ 13 →
        synchronize t = (.ok, (tread (bytesPerRead - n / 16) t1).2)) ∧
    (∀ (t t1 : Transport) (n : Nat), tread 1 t = ([n], t1) → n / 16 = 14 →
      synchronize t = (.ok, t1)) := by
  refine ⟨?_, ?_, ?_, ?_⟩
  · intro t t1 h
    simp only [synchronize, h]
  · intro t t1 n h hpos
    simp only [synchronize, h]
    rw [if_pos hpos]
  · intro t t1 n h h1 h13
    have hpos : ¬ (n / 16 = 0 ∨ n / 16 = 15) := by omega
    have hneed : bytesPerRead - n / 16 ≠ 0 := by
      simp only [bytesPerRead]
      omega
    simp only [synchronize, h]
    rw [if_neg hpos, if_pos hneed]
  · intro t t1 n h h14
    have hpos : ¬ (n / 16 = 0 ∨ n / 16 = 15) := by omega
    have hneed : ¬ bytesPerRead - n / 16 ≠ 0 := by
      simp only [bytesPerRead]
      omega
    simp only [synchronize, h]
    rw [if_neg hpos, if_neg hneed]

/-- Witness for claim C8: concrete transports exercising the NoData case,
the invalid-marker case (nothing consumed past the first byte), the discard
case and the no-discard case. -/
theorem claim_C8_witness :
    synchronize [] = (.noData, []) ∧
    synchronize [[5], [9, 9]] = (.invalidSyncValue, [[9, 9]]) ∧
    synchronize [[32], [1, 2, 3], [7]] = (.ok, [[7]]) ∧
    synchronize [[224], [7]] = (.ok, [[7]]) :=
  ⟨claim_C8_theorem.1 [] [] rfl,
   claim_C8_theorem.2.1 [[5], [9, 9]] [[9, 9]] 5 rfl (by decide),
   claim_C8_theorem.2.2.1 [[32], [1, 2, 3], [7]] [[1, 2, 3], [7]] 32 rfl (by decide)
     (by decide),
   claim_C8_theorem.2.2.2 [[224], [7]] [[7]] 224 rfl (by decide)⟩

/-- Claim C7: an exhausted retry budget raises ReadFailure; a short frame
resynchronizes and moves to the next attempt; an aligned full frame succeeds
immediately with the 0-based attempt index; a misaligned full frame
resynchronizes and moves to the next attempt; three consecutive short frames
with the default retry limit 3 end in ReadFailure; and a read only ever ends
in success or one of the NoData, InvalidSyncValue and ReadFailure errors, so
the internal misalignment signal never reaches the caller. -/
theorem claim_C7_theorem :
    (∀ (att : Nat) (t : Transport), readLoop att 0 t = .error .readFailure) ∧
    (∀ (att fuel : Nat) (t t1 : Transport) (bs : List Nat),
      tread bytesPerRead t = (bs, t1) → bs.length ≠ bytesPerRead →
        readLoop att (fuel + 1) t =
          (syncExcept (synchronize t1)).bind (readLoop (att + 1) fuel)) ∧
    (∀ (att fuel : Nat) (t t1 : Transport) (bs : List Nat),
      tread bytesPerRead t = (bs, t1) → bs.length = bytesPerRead → frameOk bs = true →
        readLoop att (fuel + 1) t = .ok (bs, att, t1)) ∧
    (∀ (att fuel : Nat) (t t1 : Transport) (bs : List Nat),
      tread bytesPerRead t = (bs, t1) → bs.length = bytesPerRead → frameOk bs = false →
        readLoop att (fuel + 1) t =
          (syncExcept (synchronize t1)).bind fun t2 =>
            (syncExcept (synchronize t2)).bind (readLoop (att + 1) fuel)) ∧
    (dmmRead 3 [[], [224], [], [224], [], [224]] = .error .readFailure) ∧
    (∀ (r : Nat) (t : Transport),
      (∃ out, dmmRead r t = .ok out) ∨ dmmRead r t = .error .noData ∨
        dmmRead r t = .error .invalidSyncValue ∨ dmmRead r t = .error .readFailure) := by
  refine ⟨?_, ?_, ?_, ?_, ?_, ?_⟩
  · intro att t
    rfl
  · intro att fuel t t1 bs h hlen
    simp only [readLoop, h]
    rw [if_pos hlen]
  · intro att fuel t t1 bs h hlen hfo
    have hlen2 : ¬ bs.length ≠ bytesPerRead := by omega
    simp only [readLoop, h]
    rw [if_neg hlen2, if_pos hfo]
  · intro att fuel t t1 bs h hlen hfo
    have hlen2 : ¬ bs.length ≠ bytesPerRead := by omega
    have hfo2 : ¬ frameOk bs = true := by simp [hfo]
    simp only [readLoop, h]
    rw [if_neg hlen2, if_neg hfo2]
  · rfl
  · intro r t
    cases hr : dmmRead r t with
    | ok out => exact Or.inl ⟨out, rfl⟩
    | error e => cases e <;> simp

/-- Witness for claim C7: the short-read equation applied to a concrete
transport. -/
theorem claim_C7_witness :
    readLoop 0 1 [[1, 2, 3]] =
      (syncExcept (synchronize [])).bind (readLoop 1 0) :=
  claim_C7_theorem.2.1 0 0 [[1, 2, 3]] [] [1, 2, 3] rfl (by decide)

/-- Claim C10: when an attempt obtains a full 14-byte frame that fails
position validation, the loop runs the synchronization routine twice before
the next attempt (once at the mismatched byte inside the scan, once again
after the scan loop). -/
theorem claim_C10_theorem (att fuel : Nat) (t t1 : Transport) (bs : List Nat)
    (h : tread bytesPerRead t = (bs, t1)) (hlen : bs.length = bytesPerRead)
    (hfo : frameOk bs = false) :
    readLoop att (fuel + 1) t =
      (syncExcept (synchronize t1)).bind fun t2 =>
        (syncExcept (synchronize t2)).bind (readLoop (att + 1) fuel) := by
  have hlen2 : ¬ bs.length ≠ bytesPerRead := by omega
  have hfo2 : ¬ frameOk bs = true := by simp [hfo]
  simp only [readLoop, h]
  rw [if_neg hlen2, if_neg hfo2]

/-- Witness for claim C10: a misaligned all-zero frame makes the loop
consume two sync markers (the two 224 bytes) before failing over. -/
theorem claim_C10_witness :
    readLoop 0 1 [[0, 0, 0, 0, 0, 0, 0, 0, 0, 0, 0, 0, 0, 0], [224], [224]] =
      (syncExcept (synchronize [[224], [224]])).bind fun t2 =>
        (syncExcept (synchronize t2)).bind (readLoop 1 0) :=
  claim_C10_theorem 0 0 [[0, 0, 0, 0, 0, 0, 0, 0, 0, 0, 0, 0, 0, 0], [224], [224]]
    [[224], [224]] [0, 0, 0, 0, 0, 0, 0, 0, 0, 0, 0, 0, 0, 0] rfl (by decide) (by decide)

/-! Auxiliary facts for claim C2: the first character of a sane display text
is a delta prefix, a rendered or raw value glyph, or a space, never the
letter I that opens the sentinel. -/

lemma strAppend_data (s t : String) : (s ++ t).data = s.data ++ t.data := rfl

lemma digitChar_mem (n : Nat) :
    digitChar n ∈ ['0', '1', '2', '3', '4', '5', '6', '7', '8', '9'] := by
  unfold digitChar
  split_ifs <;> decide

lemma natDigitsAux_mem :
    ∀ (fuel n : Nat) (c : Char), c ∈ natDigitsAux fuel n →
      c ∈ ['0', '1', '2', '3', '4', '5', '6', '7', '8', '9'] := by
  intro fuel
  induction fuel with
  | zero =>
    intro n c h
    simp [natDigitsAux] at h
  | succ f ih =>
    intro n c h
    simp only [natDigitsAux] at h
    by_cases hn : n < 10
    · rw [if_pos hn] at h
      simp only [List.mem_singleton] at h
      subst h
      exact digitChar_mem n
    · rw [if_neg hn] at h
      rw [List.mem_append] at h
      rcases h with h | h
      · exact ih _ _ h
      · simp only [List.mem_singleton] at h
        subst h
        exact digitChar_mem _

lemma natDigitsAux_ne_nil (fuel n : Nat) : natDigitsAux (fuel + 1) n ≠ [] := by
  simp only [natDigitsAux]
  split_ifs with h
  · simp
  · simp

lemma pyFloatStr_head_spec (x : ℚ) :
    ∃ c, (pyFloatStr x).data.head? = some c ∧
      (c = '-' ∨ c ∈ ['0', '1', '2', '3', '4', '5', '6', '7', '8', '9']) := by
  simp only [pyFloatStr, natStr]
  by_cases hx : x < 0
  · refine ⟨'-', ?_, Or.inl rfl⟩
    rw [if_pos hx]
    rfl
  · rw [if_neg hx]
    cases hl : natDigitsAux
        ((|x| * (10 : ℚ) ^ max (divCount 2 (|x|).den) (divCount 5 (|x|).den)).num.toNat /
            10 ^ max (divCount 2 (|x|).den) (divCount 5 (|x|).den) + 1)
        ((|x| * (10 : ℚ) ^ max (divCount 2 (|x|).den) (divCount 5 (|x|).den)).num.toNat /
            10 ^ max (divCount 2 (|x|).den) (divCount 5 (|x|).den)) with
    | nil => exact absurd hl (natDigitsAux_ne_nil _ _)
    | cons c cs =>
      refine ⟨c, ?_, Or.inr (natDigitsAux_mem _ _ c (by rw [hl]; exact List.mem_cons_self c cs))⟩
      rfl

/-- First character of the display text of a sane value: it cannot be the
letter I, so the composed text can never be the sentinel. -/
lemma sane_text_head (v : String) (a : Attribs) (ra : Nat) (rb : List Nat)
    (hwf : ∀ c ∈ v.data, c ∈ glyphAlphabet)
    (hs : (mkDmmValue v a ra rb).saneValue = true) :
    (mkDmmValue v a ra rb).text.data.head? ≠ some 'I' := by
  have hsane := hs
  rw [mkDmmValue_saneValue, interpretSteps_saneValue] at hsane
  simp only [Bool.and_eq_true, Bool.not_eq_true', decide_eq_true_eq] at hsane
  obtain ⟨⟨⟨⟨hA, hB⟩, hC⟩, hX⟩, hD⟩ := hsane
  have htext := mkDmmValue_text_sane v a ra rb hs
  intro hI
  rw [htext] at hI
  simp only [strAppend_data, List.append_assoc] at hI
  rw [interpretSteps_deltaText] at hI
  by_cases hdt : a.flags.contains ("REL delta") = true
  · rw [if_pos hdt] at hI
    have hdel : ("delta " : String).data = 'd' :: ['e', 'l', 't', 'a', ' '] := rfl
    rw [hdel] at hI
    simp only [List.cons_append, List.head?_cons] at hI
    exact (by decide : ('d' : Char) ≠ 'I') (Option.some.inj hI)
  · rw [if_neg hdt] at hI
    have hnil : ("" : String).data = [] := rfl
    rw [hnil, List.nil_append] at hI
    cases hpv : pyFloat v with
    | none =>
      have hval : (interpretSteps v a ra rb).val = v :=
        interpretSteps_val_parse_none v a ra rb hX hD hpv
      rw [hval] at hI
      cases hv : v.data with
      | nil =>
        rw [hv, List.nil_append] at hI
        simp only [List.cons_append, List.head?_cons] at hI
        exact (by decide : (' ' : Char) ≠ 'I') (Option.some.inj hI)
      | cons c cs =>
        rw [hv] at hI
        simp only [List.cons_append, List.head?_cons] at hI
        have hc : c ∈ glyphAlphabet := hwf c (by rw [hv]; exact List.mem_cons_self c cs)
        have hcI : c = 'I' := Option.some.inj hI
        subst hcI
        exact (by decide : ('I' : Char) ∉ glyphAlphabet) hc
    | some n =>
      have hval : (interpretSteps v a ra rb).val = pyFloatStr n :=
        interpretSteps_val_parse_some v a ra rb n hX hD hpv
      rw [hval] at hI
      obtain ⟨c0, hc0, hspec⟩ := pyFloatStr_head_spec n
      cases hfd : (pyFloatStr n).data with
      | nil =>
        rw [hfd] at hc0
        simp at hc0
      | cons c cs =>
        rw [hfd] at hI hc0
        simp only [List.cons_append, List.head?_cons] at hI hc0
        have hcI : c = 'I' := Option.some.inj hI
        have hcc : c0 = c := (Option.some.inj hc0).symm
        subst hcc
        subst hcI
        rcases hspec with h | h
        · exact (by decide : ('I' : Char) ≠ '-') h
        · exact (by decide : ('I' : Char) ∉
            ['0', '1', '2', '3', '4', '5', '6', '7', '8', '9']) h

/-- Claim C2 counterexample: the input L000 with one measurement flag, no
scale flags, no AC or DC flag, no X glyph and no dot yields sane=true with
an ABSENT numeric value (L000 fails the decimal parse), so the claimed
implication from sane=true to a present numeric value is false. -/
theorem claim_C2_counterexample :
    (⟨[], [], ["volts"], []⟩ : Attribs).measure.length = 1 ∧
    (⟨[], [], ["volts"], []⟩ : Attribs).scale.length ≤ 1 ∧
    (⟨[], [], ["volts"], []⟩ : Attribs).flags = [] ∧
    "L000".data.contains 'X' = false ∧
    "L000".data.count '.' ≤ 1 ∧
    (mkDmmValue "L000" ⟨[], [], ["volts"], []⟩ 0 []).saneValue = true ∧
    (mkDmmValue "L000" ⟨[], [], ["volts"], []⟩ 0 []).numericVal = none := by
  refine ⟨rfl, by decide, rfl, by decide, by decide, by decide, by decide⟩

/-- Claim C2 (amended): for a RawDecode over the glyph alphabet, sane=true
implies the display text is a composed expression distinct from the Invalid
Value sentinel, and the numeric value is present exactly when the assembled
string parses as a decimal (it can be absent with sane=true, e.g. for an L
glyph). -/
theorem claim_C2_theorem (v : String) (a : Attribs) (ra : Nat) (rb : List Nat)
    (hwf : ∀ c ∈ v.data, c ∈ glyphAlphabet)
    (hs : (mkDmmValue v a ra rb).saneValue = true) :
    (mkDmmValue v a ra rb).text ≠ "Invalid Value" ∧
    (mkDmmValue v a ra rb).numericVal =
      (pyFloat v).map (fun n => n * (mkDmmValue v a ra rb).multiplier) := by
  constructor
  · intro heq
    apply sane_text_head v a ra rb hwf hs
    rw [heq]
    rfl
  · have hsane := hs
    rw [mkDmmValue_saneValue, interpretSteps_saneValue] at hsane
    simp only [Bool.and_eq_true, Bool.not_eq_true', decide_eq_true_eq] at hsane
    obtain ⟨⟨⟨⟨hA, hB⟩, hC⟩, hX⟩, hD⟩ := hsane
    rw [mkDmmValue_numericVal, mkDmmValue_multiplier]
    exact interpretSteps_numericVal_parse v a ra rb hX hD

/-- Witness for claim C2: a sane concrete reading with its composed text and
present numeric value. -/
theorem claim_C2_witness :
    (mkDmmValue "-1.234" ⟨[], [], ["volts"], []⟩ 0 []).text ≠ "Invalid Value" ∧
    (mkDmmValue "-1.234" ⟨[], [], ["volts"], []⟩ 0 []).numericVal =
      (pyFloat "-1.234").map (fun n =>
        n * (mkDmmValue "-1.234" ⟨[], [], ["volts"], []⟩ 0 []).multiplier) :=
  claim_C2_theorem "-1.234" ⟨[], [], ["volts"], []⟩ 0 [] (by decide) (by decide)
